import Mathlib

/-!
Verification of the larascript-logger-bundle LoggerService facade.

The repository ships the interface (src/interfaces/Logger.t.ts), the jest
test suite (src/tests/LoggerService.test.ts) and the README; the
implementation file src/services/LoggerService.ts itself is not present, so
the operational definitions below are modelled from the specification,
faithful to its words and consistent with the test suite.
-/

/-- A JavaScript value passed as a logging argument: a string, a number,
an opaque object reference, null, or undefined. -/
inductive JSVal where
  | str (s : String)
  | num (n : Int)
  | obj (id : Nat)
  | null
  | undefined
deriving DecidableEq, Repr

/-- The configuration record of Logger.t.ts: exactly one field, logPath. -/
structure ILoggerConfig where
  logPath : String
deriving DecidableEq, Repr

/-- The seven severity levels exposed by the facade. -/
inductive Level where
  | info
  | warn
  | error
  | debug
  | verbose
  | help
  | data
deriving DecidableEq, Repr

/-- The lower-case name of a severity level, as used for the backend method
name and in the formatted line. -/
def levelName : Level → String
  | Level.info => "info"
  | Level.warn => "warn"
  | Level.error => "error"
  | Level.debug => "debug"
  | Level.verbose => "verbose"
  | Level.help => "help"
  | Level.data => "data"

/-- Winston format combinators referenced by boot: a timestamp format with
its format string, the custom printf line formatter, and combine of two
formats. -/
inductive WFormat where
  | timestamp (fmt : String)
  | printfLineFormatter
  | combine (a b : WFormat)
deriving DecidableEq, Repr

/-- Winston transports referenced by boot: the console sink and the file
sink bound to a filename. -/
inductive WTransport where
  | console
  | file (filename : String)
deriving DecidableEq, Repr

/-- The options record handed to winston.createLogger. -/
structure CreateLoggerOpts where
  level : String
  fmt : WFormat
  transports : List WTransport
deriving DecidableEq, Repr

/-- The opaque backend logger handle, identified by the options it was
constructed with. -/
structure WinstonLogger where
  opts : CreateLoggerOpts
deriving DecidableEq, Repr

/-- Observable effects of the facade: one backend construction, one call of
a named backend method with a single array argument, or one direct write of
a single array to standard output. -/
inductive Event where
  | createLogger (opts : CreateLoggerOpts)
  | backendCall (lvl : Level) (args : List JSVal)
  | consoleLog (args : List JSVal)
deriving DecidableEq, Repr

/-- The uninitialized-use failure: the JavaScript TypeError raised when a
property named prop is read on an undefined handle, propagated untranslated
to the caller. -/
inductive CallErr where
  | undefinedPropertyRead (prop : String)
deriving DecidableEq, Repr

/-- The caller-side store of configuration objects: a heap mapping object
references to configuration records. Models JavaScript object identity, so
that storing by reference is distinguishable from storing a copy. -/
def Heap : Type := Nat → ILoggerConfig

/-- The state of a LoggerService instance: the reference to the config
object given at construction, and the lazily created backend handle,
undefined (none) until the first boot. -/
structure LoggerService where
  configRef : Nat
  logger : Option WinstonLogger
deriving DecidableEq, Repr

/-- Modelled from the spec: the constructor of the missing
src/services/LoggerService.ts stores the received config object (by
reference, hence only its heap address here), performs no backend
construction and never fails. -/
def LoggerService.construct (ref : Nat) : LoggerService :=
  LoggerService.mk ref none

/-- The fixed format boot installs: combine(timestamp with the fixed
format string, the custom printf line formatter). -/
def bootFormat : WFormat :=
  WFormat.combine (WFormat.timestamp "YYYY-MM-DD HH:mm:ss")
    WFormat.printfLineFormatter

/-- The createLogger options boot uses: minimum severity info, the combined
format, a console sink and a file sink bound to the given path. -/
def bootOpts (path : String) : CreateLoggerOpts :=
  CreateLoggerOpts.mk "info" bootFormat
    [WTransport.console, WTransport.file path]

/-- Modelled from the spec: boot of the missing LoggerService.ts. If the
handle already exists it returns immediately with no side effect and no
error; otherwise it constructs the backend with the fixed options, reading
logPath from the referenced config object at this moment, stores the
handle, and emits one construction event. -/
def LoggerService.boot (s : LoggerService) (h : Heap) :
    LoggerService × List Event :=
  match s.logger with
  | some _ => (s, [])
  | none =>
      let opts := bootOpts (h s.configRef).logPath
      (LoggerService.mk s.configRef (some (WinstonLogger.mk opts)),
        [Event.createLogger opts])

/-- Modelled from the spec: the shared body of the leveled logging methods
of the missing LoggerService.ts. Reading the method on an undefined handle
raises the TypeError; otherwise the single array of collected arguments is
forwarded, unmodified, to the identically named backend method. -/
def LoggerService.logMsg (s : LoggerService) (lvl : Level)
    (args : List JSVal) : Except CallErr (List Event) :=
  match s.logger with
  | none => Except.error (CallErr.undefinedPropertyRead (levelName lvl))
  | some _ => Except.ok [Event.backendCall lvl args]

/-- Modelled from the spec: info of the missing LoggerService.ts. -/
def LoggerService.info (s : LoggerService) (args : List JSVal) :
    Except CallErr (List Event) :=
  s.logMsg Level.info args

/-- Modelled from the spec: warn of the missing LoggerService.ts. -/
def LoggerService.warn (s : LoggerService) (args : List JSVal) :
    Except CallErr (List Event) :=
  s.logMsg Level.warn args

/-- Modelled from the spec: error of the missing LoggerService.ts. -/
def LoggerService.error (s : LoggerService) (args : List JSVal) :
    Except CallErr (List Event) :=
  s.logMsg Level.error args

/-- Modelled from the spec: debug of the missing LoggerService.ts. -/
def LoggerService.debug (s : LoggerService) (args : List JSVal) :
    Except CallErr (List Event) :=
  s.logMsg Level.debug args

/-- Modelled from the spec: verbose of the missing LoggerService.ts. -/
def LoggerService.verbose (s : LoggerService) (args : List JSVal) :
    Except CallErr (List Event) :=
  s.logMsg Level.verbose args

/-- Modelled from the spec: help of the missing LoggerService.ts. -/
def LoggerService.help (s : LoggerService) (args : List JSVal) :
    Except CallErr (List Event) :=
  s.logMsg Level.help args

/-- Modelled from the spec: data of the missing LoggerService.ts. -/
def LoggerService.data (s : LoggerService) (args : List JSVal) :
    Except CallErr (List Event) :=
  s.logMsg Level.data args

/-- A JavaScript Error object as exception receives it: a message and a
possibly undefined stack. -/
structure JSErrorObj where
  message : String
  stack : Option String
deriving DecidableEq, Repr

/-- The value err.stack as forwarded: the string when present, undefined
otherwise. -/
def stackVal : Option String → JSVal
  | none => JSVal.undefined
  | some st => JSVal.str st

/-- Modelled from the spec: exception of the missing LoggerService.ts.
Forwards the two-element array of message and stack to the error-level
backend method, failing like the leveled methods when the handle is still
undefined. -/
def LoggerService.exception (s : LoggerService) (err : JSErrorObj) :
    Except CallErr (List Event) :=
  s.logMsg Level.error [JSVal.str err.message, stackVal err.stack]

/-- Modelled from the spec: getLogger of the missing LoggerService.ts.
Returns the current handle, possibly undefined, with no side effects. -/
def LoggerService.getLogger (s : LoggerService) : Option WinstonLogger :=
  s.logger

/-- Modelled from the spec: console of the missing LoggerService.ts.
Writes the single array of collected arguments directly to standard
output, independent of the boot state and of the backend. -/
def LoggerService.console (_s : LoggerService) (args : List JSVal) :
    List Event :=
  [Event.consoleLog args]

/-- The record the printf line formatter receives: the rendered timestamp,
the severity name, and the rendered message. -/
structure LogInfo where
  timestamp : String
  level : String
  message : String
deriving DecidableEq, Repr

/-- Character-wise upper-casing of a string, the semantics of the
JavaScript toUpperCase call on ASCII level names. -/
def toUpperStr (s : String) : String :=
  String.mk (s.data.map Char.toUpper)

/-- Modelled from the spec: the custom printf line formatter of the missing
LoggerService.ts, producing timestamp, one space, the upper-cased level in
square brackets, a colon, one space, then the rendered message. -/
def formatLine (inf : LogInfo) : String :=
  inf.timestamp ++ " [" ++ toUpperStr inf.level ++ "]: " ++ inf.message

/-- The upper-cased name of each severity level. -/
def upperLevelName : Level → String
  | Level.info => "INFO"
  | Level.warn => "WARN"
  | Level.error => "ERROR"
  | Level.debug => "DEBUG"
  | Level.verbose => "VERBOSE"
  | Level.help => "HELP"
  | Level.data => "DATA"

/-- The method names declared by the ILoggerService interface in
src/interfaces/Logger.t.ts, in declaration order. -/
def ILoggerServiceMethods : List String :=
  ["getLogger", "info", "warn", "error", "debug", "verbose", "console",
    "exception"]

/-- Iterated boot: call boot n times against the same heap, accumulating
the emitted events. -/
def LoggerService.bootN (s : LoggerService) (h : Heap) :
    Nat → LoggerService × List Event
  | 0 => (s, [])
  | Nat.succ n =>
      let p := s.boot h
      let q := p.1.bootN h n
      (q.1, p.2 ++ q.2)

/-- Whether an event is a backend-construction event. -/
def isCreate : Event → Bool
  | Event.createLogger _ => true
  | _ => false

/-- The number of backend-construction events in a trace. -/
def createCount (es : List Event) : Nat :=
  (es.filter isCreate).length

theorem toUpperStr_levelName (lvl : Level) :
    toUpperStr (levelName lvl) = upperLevelName lvl := by
  cases lvl <;> decide

theorem bootN_succ (s : LoggerService) (h : Heap) (n : Nat) :
    s.bootN h (n + 1) =
      (((s.boot h).1.bootN h n).1,
        (s.boot h).2 ++ ((s.boot h).1.bootN h n).2) :=
  rfl

theorem boot_of_some (s : LoggerService) (h : Heap) (l : WinstonLogger)
    (hs : s.logger = some l) : s.boot h = (s, []) := by
  unfold LoggerService.boot
  rw [hs]

theorem bootN_of_some (n : Nat) (s : LoggerService) (h : Heap)
    (l : WinstonLogger) (hs : s.logger = some l) : s.bootN h n = (s, []) := by
  induction n with
  | zero => rfl
  | succ n ih =>
      unfold LoggerService.bootN
      rw [boot_of_some s h l hs]
      simp [ih]

/-- C1: after boot, each of the seven leveled methods forwards exactly the
single array of its arguments, order preserved and unmodified, to the
identically named backend method, and never fails — for every argument
tuple, including the empty one and ones holding null or undefined. -/
theorem c1_leveled_forwarding (ref : Nat) (h : Heap) (args : List JSVal) :
    (((LoggerService.construct ref).boot h).1.info args =
        Except.ok [Event.backendCall Level.info args]) ∧
    (((LoggerService.construct ref).boot h).1.warn args =
        Except.ok [Event.backendCall Level.warn args]) ∧
    (((LoggerService.construct ref).boot h).1.error args =
        Except.ok [Event.backendCall Level.error args]) ∧
    (((LoggerService.construct ref).boot h).1.debug args =
        Except.ok [Event.backendCall Level.debug args]) ∧
    (((LoggerService.construct ref).boot h).1.verbose args =
        Except.ok [Event.backendCall Level.verbose args]) ∧
    (((LoggerService.construct ref).boot h).1.help args =
        Except.ok [Event.backendCall Level.help args]) ∧
    (((LoggerService.construct ref).boot h).1.data args =
        Except.ok [Event.backendCall Level.data args]) :=
  ⟨rfl, rfl, rfl, rfl, rfl, rfl, rfl⟩

/-- C2: each leveled method and exception, called before boot was ever
called, raises the untranslated undefined-property-read error naming the
backend method it tried to reach; called after a successful boot they
succeed and no such error is raised. -/
theorem c2_uninitialized_use (ref : Nat) (h : Heap) (lvl : Level)
    (args : List JSVal) (err : JSErrorObj) :
    ((LoggerService.construct ref).logMsg lvl args =
        Except.error (CallErr.undefinedPropertyRead (levelName lvl))) ∧
    ((LoggerService.construct ref).exception err =
        Except.error (CallErr.undefinedPropertyRead "error")) ∧
    ((((LoggerService.construct ref).boot h).1.logMsg lvl args).isOk =
        true) ∧
    ((((LoggerService.construct ref).boot h).1.exception err).isOk =
        true) :=
  ⟨rfl, rfl, rfl, rfl⟩

/-- C3: on one instance, any positive number of boot calls against one
configuration yields exactly one backend-construction event; the second
and later calls add no events and leave the state exactly where the first
call put it. -/
theorem c3_boot_idempotent (ref n : Nat) (h : Heap) (hn : 1 ≤ n) :
    (createCount ((LoggerService.construct ref).bootN h n).2 = 1) ∧
    (((LoggerService.construct ref).bootN h n).2 =
        ((LoggerService.construct ref).boot h).2) ∧
    (((LoggerService.construct ref).bootN h n).1 =
        ((LoggerService.construct ref).boot h).1) ∧
    ((((LoggerService.construct ref).boot h).1.boot h =
        (((LoggerService.construct ref).boot h).1, []))) := by
  obtain ⟨m, rfl⟩ : ∃ m, n = m + 1 := ⟨n - 1, by omega⟩
  have hsome :
      ((LoggerService.construct ref).boot h).1.logger =
        some (WinstonLogger.mk (bootOpts (h ref).logPath)) := rfl
  have hrest := bootN_of_some m ((LoggerService.construct ref).boot h).1 h
    (WinstonLogger.mk (bootOpts (h ref).logPath)) hsome
  have hstep := bootN_succ (LoggerService.construct ref) h m
  rw [hrest] at hstep
  simp only [List.append_nil] at hstep
  refine ⟨?_, ?_, ?_, ?_⟩
  · rw [hstep]
    rfl
  · rw [hstep]
  · rw [hstep]
  · exact boot_of_some _ h _ hsome

/-- Witness for C3 at a concrete configuration, three boot calls. -/
theorem c3_boot_idempotent_witness :
    createCount ((LoggerService.construct 0).bootN
      (fun _ => ILoggerConfig.mk "/tmp/test.log") 3).2 = 1 :=
  (c3_boot_idempotent 0 3 (fun _ => ILoggerConfig.mk "/tmp/test.log")
    (by decide)).1

/-- C4: after boot, exception forwards exactly the two-element array of
the message and the stack to the error-level backend method; an undefined
stack is passed through as undefined, not defaulted or suppressed. -/
theorem c4_exception_forwarding (ref : Nat) (h : Heap) (err : JSErrorObj) :
    (((LoggerService.construct ref).boot h).1.exception err =
        Except.ok [Event.backendCall Level.error
          [JSVal.str err.message, stackVal err.stack]]) ∧
    (stackVal none = JSVal.undefined) :=
  ⟨rfl, rfl⟩

/-- C5: getLogger returns undefined on every call before the first boot,
and after boot it returns the stable backend handle: unchanged by a second
boot, and logging calls do not touch the state it reads. -/
theorem c5_getLogger (ref : Nat) (h h2 : Heap) :
    ((LoggerService.construct ref).getLogger = none) ∧
    (((LoggerService.construct ref).boot h).1.getLogger =
        some (WinstonLogger.mk (bootOpts (h ref).logPath))) ∧
    ((((LoggerService.construct ref).boot h).1.boot h2).1.getLogger =
        ((LoggerService.construct ref).boot h).1.getLogger) :=
  ⟨rfl, rfl, rfl⟩

/-- C6: the first boot constructs the backend with minimum severity info,
the format combining the timestamp format YYYY-MM-DD HH:mm:ss with the
custom line formatter, and exactly the two sinks console and file bound to
the configured logPath — and nothing else happens. -/
theorem c6_boot_construction (ref : Nat) (h : Heap) :
    ((LoggerService.construct ref).boot h).2 =
      [Event.createLogger (CreateLoggerOpts.mk "info"
        (WFormat.combine (WFormat.timestamp "YYYY-MM-DD HH:mm:ss")
          WFormat.printfLineFormatter)
        [WTransport.console, WTransport.file (h ref).logPath])] :=
  rfl

/-- C7: console writes exactly the single array of its arguments directly
to standard output, on every state — booted or not — and emits no backend
call and no construction. -/
theorem c7_console_direct (s : LoggerService) (args : List JSVal) :
    (s.console args = [Event.consoleLog args]) ∧
    ((s.console args).filter isCreate = []) ∧
    (∀ lvl a2, Event.backendCall lvl a2 ∉ s.console args) := by
  refine ⟨rfl, rfl, ?_⟩
  intro lvl a2 hmem
  simp [LoggerService.console] at hmem

/-- C8: for every level, timestamp and rendered message, the emitted line
is exactly the timestamp, a space, the upper-cased level name in square
brackets, a colon and a space, then the rendered message. -/
theorem c8_line_format (ts msg : String) (lvl : Level) :
    formatLine (LogInfo.mk ts (levelName lvl) msg) =
      ts ++ " [" ++ upperLevelName lvl ++ "]: " ++ msg := by
  show ts ++ " [" ++ toUpperStr (levelName lvl) ++ "]: " ++ msg =
    ts ++ " [" ++ upperLevelName lvl ++ "]: " ++ msg
  rw [toUpperStr_levelName]

/-- C9: the implementation exposes help and data, forwarding the single
argument array to the identically named backend methods, while the
ILoggerService interface declares neither of them nor boot. -/
theorem c9_help_data_beyond_interface (ref : Nat) (h : Heap)
    (args : List JSVal) :
    (((LoggerService.construct ref).boot h).1.help args =
        Except.ok [Event.backendCall Level.help args]) ∧
    (((LoggerService.construct ref).boot h).1.data args =
        Except.ok [Event.backendCall Level.data args]) ∧
    ("help" ∉ ILoggerServiceMethods) ∧
    ("data" ∉ ILoggerServiceMethods) ∧
    ("boot" ∉ ILoggerServiceMethods) :=
  ⟨rfl, rfl, by decide, by decide, by decide⟩

/-- C10: the constructor stores the config object itself — the very
reference it was given, not a copy — so boot reads the logPath the
caller's object holds at boot time, whatever heap contents then obtain. -/
theorem c10_config_by_reference (ref : Nat) (h2 : Heap) :
    ((LoggerService.construct ref).configRef = ref) ∧
    (((LoggerService.construct ref).boot h2).2 =
        [Event.createLogger (bootOpts (h2 ref).logPath)]) :=
  ⟨rfl, rfl⟩
